import Mathlib

/-!
Shallow embedding of the yield-arbitrage calculator component
(`src/components/YieldCalculator.tsx`, with the identical calculation code in
`src/unnamed/part_000`).  JavaScript IEEE-754 numbers are abstracted as
rationals (`ℚ`); user-typed amount strings are abstracted by the two
observations the component makes of them: JS truthiness (only the empty
string is falsy) and the result of `parseFloat` (`NaN` or a number).
-/

namespace YieldArb

/-- `interface TokenPrice` from the source (all `number` fields as `ℚ`). -/
structure TokenPrice where
  price : ℚ
  decimals : ℚ
  symbol : String
  timestamp : ℚ
deriving DecidableEq

/-- `interface TokenInfo` from the source: one lending-market asset. -/
structure TokenInfo where
  symbol : String
  name : String
  address : String
  maxLtv : ℚ
  utilization : ℚ
  borrowApy : ℚ
deriving DecidableEq

/-- `interface Strategy` from the source: one yield strategy. -/
structure Strategy where
  id : String
  name : String
  apy : ℚ
  token : String
  minDeposit : ℚ
deriving DecidableEq

/-- A user-typed amount string, abstracted by what the component observes of
it: `empty` is the empty string `""` (the only JS-falsy string, and
`parseFloat("")` is `NaN`); `unparsable` is a nonempty string on which
`parseFloat` returns `NaN`; `parsed v` is a nonempty string on which
`parseFloat` returns the number `v`. -/
inductive AmountStr where
  | empty : AmountStr
  | unparsable : AmountStr
  | parsed (v : ℚ) : AmountStr
deriving DecidableEq

/-- JS truthiness of the string: `!s` in the source is `!s.isTruthy` here. -/
def AmountStr.isTruthy : AmountStr → Bool
  | .empty => false
  | .unparsable => true
  | .parsed _ => true

/-- `parseFloat(s)`, with `none` standing for the JS `NaN` result (the code
only ever tests the result with `isNaN` before using it as a number). -/
def AmountStr.parseFloat : AmountStr → Option ℚ
  | .empty => none
  | .unparsable => none
  | .parsed v => some v

/-- The React state of the `YieldCalculator` component: each `useState` hook
becomes one field, in source order. -/
structure ComponentState where
  selectedAsset : Option TokenInfo
  prices : List (String × TokenPrice)
  logos : List (String × String)
  depositAmount : AmountStr
  borrowAmount : AmountStr
  selectedStrategy : Option Strategy
  loading : Bool
  assets : List TokenInfo
  strategies : List Strategy
deriving DecidableEq

/-- The record literal returned by `calculateYields` on the success path. -/
structure YieldsResult where
  daily : ℚ
  weekly : ℚ
  monthly : ℚ
  annual : ℚ
  apy : ℚ
deriving DecidableEq

/-- `calculateHealthFactor` from the source:

```
if (!selectedAsset || !depositAmount || !borrowAmount) return 0;
const deposit = parseFloat(depositAmount);
const borrow = parseFloat(borrowAmount);
if (isNaN(deposit) || isNaN(borrow) || deposit <= 0 || borrow <= 0) return 0;
const maxBorrow = deposit * (selectedAsset.maxLtv / 100);
return (maxBorrow / borrow) * 100;
```

The `none` branches of the inner match are the `isNaN` guards. -/
def calculateHealthFactor (st : ComponentState) : ℚ :=
  match st.selectedAsset with
  | none => 0
  | some selectedAsset =>
    if !st.depositAmount.isTruthy || !st.borrowAmount.isTruthy then 0
    else
      match st.depositAmount.parseFloat, st.borrowAmount.parseFloat with
      | some deposit, some borrow =>
        if deposit ≤ 0 ∨ borrow ≤ 0 then 0
        else
          let maxBorrow := deposit * (selectedAsset.maxLtv / 100)
          (maxBorrow / borrow) * 100
      | _, _ => 0

/-- `calculateYields` from the source:

```
if (!selectedAsset || !selectedStrategy || !depositAmount || !borrowAmount) return null;
const deposit = parseFloat(depositAmount);
const borrow = parseFloat(borrowAmount);
if (isNaN(deposit) || isNaN(borrow) || deposit <= 0 || borrow <= 0) return null;
const borrowCost = borrow * (selectedAsset.borrowApy / 100);
const yield_ = borrow * (selectedStrategy.apy / 100);
const netYield = yield_ - borrowCost;
return { daily: netYield / 365, weekly: netYield / 52,
         monthly: netYield / 12, annual: netYield,
         apy: (netYield / deposit) * 100 };
```
-/
def calculateYields (st : ComponentState) : Option YieldsResult :=
  match st.selectedAsset, st.selectedStrategy with
  | some selectedAsset, some selectedStrategy =>
    if !st.depositAmount.isTruthy || !st.borrowAmount.isTruthy then none
    else
      match st.depositAmount.parseFloat, st.borrowAmount.parseFloat with
      | some deposit, some borrow =>
        if deposit ≤ 0 ∨ borrow ≤ 0 then none
        else
          let borrowCost := borrow * (selectedAsset.borrowApy / 100)
          let yield_ := borrow * (selectedStrategy.apy / 100)
          let netYield := yield_ - borrowCost
          some { daily := netYield / 365
                 weekly := netYield / 52
                 monthly := netYield / 12
                 annual := netYield
                 apy := (netYield / deposit) * 100 }
      | _, _ => none
  | _, _ => none

/-- Render guard `{healthFactor > 0 && (...)}`: the health-factor block is in
the output exactly when the computed health factor is positive. -/
def healthFactorShown (st : ComponentState) : Bool :=
  decide (0 < calculateHealthFactor st)

/-- Render guard `{healthFactor < 110 && (...)}` nested inside the
health-factor block: the liquidation-risk warning. -/
def liquidationRiskShown (st : ComponentState) : Bool :=
  healthFactorShown st && decide (calculateHealthFactor st < 110)

/-- Render guard `{yields && (...)}`: the results panel. -/
def yieldsShown (st : ComponentState) : Bool :=
  (calculateYields st).isSome

/-- Division instrumented to detect a zero divisor. -/
def checkedDiv (a b : ℚ) : Option ℚ :=
  if b = 0 then none else some (a / b)

/-- `calculateHealthFactor` with its division by `borrow` instrumented by
`checkedDiv`; an outer `none` result marks a division by zero.  (The division
by the literal `100` has a constant nonzero divisor.) -/
def calculateHealthFactorChecked (st : ComponentState) : Option ℚ :=
  match st.selectedAsset with
  | none => some 0
  | some selectedAsset =>
    if !st.depositAmount.isTruthy || !st.borrowAmount.isTruthy then some 0
    else
      match st.depositAmount.parseFloat, st.borrowAmount.parseFloat with
      | some deposit, some borrow =>
        if deposit ≤ 0 ∨ borrow ≤ 0 then some 0
        else
          let maxBorrow := deposit * (selectedAsset.maxLtv / 100)
          (checkedDiv maxBorrow borrow).map (fun q => q * 100)
      | _, _ => some 0

/-- `calculateYields` with its division by `deposit` instrumented by
`checkedDiv`; an outer `none` result marks a division by zero.  (The
divisions by the literals `365`, `52`, `12`, `100` have constant nonzero
divisors.) -/
def calculateYieldsChecked (st : ComponentState) : Option (Option YieldsResult) :=
  match st.selectedAsset, st.selectedStrategy with
  | some selectedAsset, some selectedStrategy =>
    if !st.depositAmount.isTruthy || !st.borrowAmount.isTruthy then some none
    else
      match st.depositAmount.parseFloat, st.borrowAmount.parseFloat with
      | some deposit, some borrow =>
        if deposit ≤ 0 ∨ borrow ≤ 0 then some none
        else
          let borrowCost := borrow * (selectedAsset.borrowApy / 100)
          let yield_ := borrow * (selectedStrategy.apy / 100)
          let netYield := yield_ - borrowCost
          (checkedDiv netYield deposit).map (fun q =>
            some { daily := netYield / 365
                   weekly := netYield / 52
                   monthly := netYield / 12
                   annual := netYield
                   apy := q * 100 })
      | _, _ => some none
  | _, _ => some none

/-- A concrete asset for witnesses: maxLtv 80%, borrow APY 15%. -/
def exAsset : TokenInfo :=
  { symbol := "WETH", name := "Wrapped Ether", address := "0xabc",
    maxLtv := 80, utilization := 50, borrowApy := 15 }

/-- A concrete strategy for witnesses: APY 4%. -/
def exStrategy : Strategy :=
  { id := "0xdef", name := "Goat Vault", apy := 4, token := "USDC.e", minDeposit := 0 }

/-- Builds a component state from the four fields the calculations read,
with fixed values for the remaining React state. -/
def mkState (sa : Option TokenInfo) (ss : Option Strategy) (da ba : AmountStr) :
    ComponentState :=
  { selectedAsset := sa, prices := [], logos := [], depositAmount := da,
    borrowAmount := ba, selectedStrategy := ss, loading := false,
    assets := [], strategies := [] }

/-! ### Shared characterization lemmas -/

/-- On the success path, `calculateHealthFactor` computes the source formula. -/
theorem calculateHealthFactor_valid (st : ComponentState) (a : TokenInfo) (dv bv : ℚ)
    (hA : st.selectedAsset = some a)
    (hd : st.depositAmount = AmountStr.parsed dv)
    (hb : st.borrowAmount = AmountStr.parsed bv)
    (hdv : 0 < dv) (hbv : 0 < bv) :
    calculateHealthFactor st = dv * (a.maxLtv / 100) / bv * 100 := by
  obtain ⟨sa, pr, lg, da, ba, ss, ld, asl, sgl⟩ := st
  dsimp only at hA hd hb
  subst hA hd hb
  simp only [calculateHealthFactor, AmountStr.isTruthy, AmountStr.parseFloat,
    Bool.not_true, Bool.or_self, Bool.false_eq_true, if_false]
  rw [if_neg]
  push_neg
  exact ⟨hdv, hbv⟩

/-- Full characterization of a non-`null` `calculateYields` result. -/
theorem calculateYields_eq_some_iff (st : ComponentState) (r : YieldsResult) :
    calculateYields st = some r ↔
      ∃ a s dv bv,
        st.selectedAsset = some a ∧ st.selectedStrategy = some s ∧
        st.depositAmount = AmountStr.parsed dv ∧ st.borrowAmount = AmountStr.parsed bv ∧
        0 < dv ∧ 0 < bv ∧
        r = { daily := (bv * (s.apy / 100) - bv * (a.borrowApy / 100)) / 365
              weekly := (bv * (s.apy / 100) - bv * (a.borrowApy / 100)) / 52
              monthly := (bv * (s.apy / 100) - bv * (a.borrowApy / 100)) / 12
              annual := bv * (s.apy / 100) - bv * (a.borrowApy / 100)
              apy := (bv * (s.apy / 100) - bv * (a.borrowApy / 100)) / dv * 100 } := by
  obtain ⟨sa, pr, lg, da, ba, ss, ld, asl, sgl⟩ := st
  cases sa <;> cases ss <;> cases da <;> cases ba <;>
    simp only [calculateYields, AmountStr.isTruthy, AmountStr.parseFloat,
      Bool.not_true, Bool.not_false, Bool.or_self, Bool.true_or, Bool.or_true,
      Bool.false_or, Bool.false_eq_true, if_true, if_false, reduceCtorEq,
      Option.some.injEq, AmountStr.parsed.injEq, false_and, and_false,
      exists_false, exists_and_left, exists_eq_left] <;>
    try simp
  case parsed.parsed v w =>
    constructor
    · rintro ⟨⟨hv, hw⟩, rfl⟩
      exact ⟨hv, hw, rfl⟩
    · rintro ⟨hv, hw, rfl⟩
      exact ⟨⟨hv, hw⟩, rfl⟩

/-- `calculateYields` is non-`null` exactly when an asset and a strategy are
selected and both amounts parse to positive numbers. -/
theorem calculateYields_isSome_iff (st : ComponentState) :
    (calculateYields st).isSome = true ↔
      (∃ a, st.selectedAsset = some a) ∧ (∃ s, st.selectedStrategy = some s) ∧
      (∃ dv, st.depositAmount = AmountStr.parsed dv ∧ 0 < dv) ∧
      (∃ bv, st.borrowAmount = AmountStr.parsed bv ∧ 0 < bv) := by
  constructor
  · intro h
    obtain ⟨r, hr⟩ := Option.isSome_iff_exists.1 h
    obtain ⟨a, s, dv, bv, hA, hS, hd, hb, hdv, hbv, -⟩ :=
      (calculateYields_eq_some_iff st r).1 hr
    exact ⟨⟨a, hA⟩, ⟨s, hS⟩, ⟨dv, hd, hdv⟩, ⟨bv, hb, hbv⟩⟩
  · rintro ⟨⟨a, hA⟩, ⟨s, hS⟩, ⟨dv, hd, hdv⟩, ⟨bv, hb, hbv⟩⟩
    rw [Option.isSome_iff_exists]
    exact ⟨_, (calculateYields_eq_some_iff st _).2
      ⟨a, s, dv, bv, hA, hS, hd, hb, hdv, hbv, rfl⟩⟩

/-- `calculateHealthFactor` is nonzero exactly when an asset is selected,
both amounts parse to positive numbers, and the asset's maxLtv is nonzero. -/
theorem calculateHealthFactor_ne_zero_iff (st : ComponentState) :
    calculateHealthFactor st ≠ 0 ↔
      ∃ a dv bv, st.selectedAsset = some a ∧
        st.depositAmount = AmountStr.parsed dv ∧ st.borrowAmount = AmountStr.parsed bv ∧
        0 < dv ∧ 0 < bv ∧ a.maxLtv ≠ 0 := by
  obtain ⟨sa, pr, lg, da, ba, ss, ld, asl, sgl⟩ := st
  cases sa <;> cases da <;> cases ba <;>
    simp only [calculateHealthFactor, AmountStr.isTruthy, AmountStr.parseFloat,
      Bool.not_true, Bool.not_false, Bool.or_self, Bool.true_or, Bool.or_true,
      Bool.false_or, Bool.false_eq_true, if_true, if_false, reduceCtorEq,
      Option.some.injEq, AmountStr.parsed.injEq, false_and, and_false,
      exists_false, exists_and_left, exists_eq_left, ne_eq] <;>
    try simp
  case some.parsed.parsed a v w =>
    intro hv hw
    exact ⟨fun h => h.1.2, fun h => ⟨⟨ne_of_gt hv, h⟩, ne_of_gt hw⟩⟩

/-! ### Claims -/

/-- C1: when an asset and a strategy are selected and both amount strings
parse to positive numbers, `calculateYields` returns a non-null result whose
`annual` field equals `borrow * (strategyApy - borrowApy) / 100` exactly;
when the asset or strategy is unselected, or either amount string is
missing, unparsable, zero, or negative, `calculateYields` returns null. -/
theorem yields_spec (st : ComponentState) :
    (∀ a s dv bv,
      st.selectedAsset = some a → st.selectedStrategy = some s →
      st.depositAmount = AmountStr.parsed dv → st.borrowAmount = AmountStr.parsed bv →
      0 < dv → 0 < bv →
      ∃ r, calculateYields st = some r ∧ r.annual = bv * (s.apy - a.borrowApy) / 100) ∧
    ((st.selectedAsset = none ∨ st.selectedStrategy = none ∨
      st.depositAmount = AmountStr.empty ∨ st.borrowAmount = AmountStr.empty ∨
      st.depositAmount = AmountStr.unparsable ∨ st.borrowAmount = AmountStr.unparsable ∨
      (∃ v, st.depositAmount = AmountStr.parsed v ∧ v ≤ 0) ∨
      (∃ v, st.borrowAmount = AmountStr.parsed v ∧ v ≤ 0)) →
      calculateYields st = none) := by
  constructor
  · intro a s dv bv hA hS hd hb hdv hbv
    refine ⟨_, (calculateYields_eq_some_iff st _).2
      ⟨a, s, dv, bv, hA, hS, hd, hb, hdv, hbv, rfl⟩, ?_⟩
    show bv * (s.apy / 100) - bv * (a.borrowApy / 100) = bv * (s.apy - a.borrowApy) / 100
    ring
  · intro h
    cases hy : calculateYields st with
    | none => rfl
    | some r =>
      obtain ⟨a, s, dv, bv, hA, hS, hd, hb, hdv, hbv, -⟩ :=
        (calculateYields_eq_some_iff st r).1 hy
      rcases h with h | h | h | h | h | h | ⟨v, hv, hv0⟩ | ⟨v, hv, hv0⟩ <;>
        simp_all <;> linarith

/-- Witness for C1: the spec's worked example (borrowApy 15, strategyApy 4,
borrow 500 gives annual net yield -55), and a null result without a
strategy. -/
theorem yields_spec_witness :
    (∃ r, calculateYields (mkState (some exAsset) (some exStrategy)
        (AmountStr.parsed 1000) (AmountStr.parsed 500)) = some r ∧
      r.annual = 500 * (4 - 15) / 100) ∧
    calculateYields (mkState (some exAsset) none
        (AmountStr.parsed 1000) (AmountStr.parsed 500)) = none := by
  constructor
  · obtain ⟨r, hr, ha⟩ := (yields_spec (mkState (some exAsset) (some exStrategy)
      (AmountStr.parsed 1000) (AmountStr.parsed 500))).1 exAsset exStrategy 1000 500
      rfl rfl rfl rfl (by norm_num) (by norm_num)
    refine ⟨r, hr, ?_⟩
    rw [ha]
    norm_num [exAsset, exStrategy]
  · exact (yields_spec _).2 (Or.inr (Or.inl rfl))

/-- C2: with an asset selected and both amounts parsing to positive numbers,
`calculateHealthFactor` returns `(deposit * (maxLtv / 100) / borrow) * 100`,
which equals `deposit * maxLtv / borrow`. -/
theorem healthFactor_formula (st : ComponentState) (a : TokenInfo) (dv bv : ℚ)
    (hA : st.selectedAsset = some a)
    (hd : st.depositAmount = AmountStr.parsed dv)
    (hb : st.borrowAmount = AmountStr.parsed bv)
    (hdv : 0 < dv) (hbv : 0 < bv) :
    calculateHealthFactor st = dv * (a.maxLtv / 100) / bv * 100 ∧
    calculateHealthFactor st = dv * a.maxLtv / bv := by
  have h := calculateHealthFactor_valid st a dv bv hA hd hb hdv hbv
  refine ⟨h, ?_⟩
  rw [h]
  have hbv' : bv ≠ 0 := ne_of_gt hbv
  field_simp
  ring

/-- Witness for C2: the spec's example `maxLtv=80`, `deposit=1000`,
`borrow=500` gives a health factor of 160. -/
theorem healthFactor_formula_witness :
    calculateHealthFactor (mkState (some exAsset) none
      (AmountStr.parsed 1000) (AmountStr.parsed 500)) = 160 := by
  have h := (healthFactor_formula (mkState (some exAsset) none
      (AmountStr.parsed 1000) (AmountStr.parsed 500)) exAsset 1000 500
      rfl rfl rfl (by norm_num) (by norm_num)).2
  rw [h]
  norm_num [exAsset]

/-- C3: with the asset unselected, or either amount string empty,
non-numeric, zero, or negative, `calculateHealthFactor` returns exactly 0. -/
theorem healthFactor_zero_on_invalid (st : ComponentState)
    (h : st.selectedAsset = none ∨
      st.depositAmount = AmountStr.empty ∨ st.borrowAmount = AmountStr.empty ∨
      st.depositAmount = AmountStr.unparsable ∨ st.borrowAmount = AmountStr.unparsable ∨
      (∃ v, st.depositAmount = AmountStr.parsed v ∧ v ≤ 0) ∨
      (∃ v, st.borrowAmount = AmountStr.parsed v ∧ v ≤ 0)) :
    calculateHealthFactor st = 0 := by
  by_contra hne
  obtain ⟨a, dv, bv, hA, hd, hb, hdv, hbv, -⟩ :=
    (calculateHealthFactor_ne_zero_iff st).1 hne
  rcases h with h | h | h | h | h | ⟨v, hv, hv0⟩ | ⟨v, hv, hv0⟩ <;>
    simp_all <;> linarith

/-- Witness for C3: no asset selected gives health factor 0. -/
theorem healthFactor_zero_on_invalid_witness :
    calculateHealthFactor (mkState none (some exStrategy)
      (AmountStr.parsed 1000) (AmountStr.parsed 500)) = 0 :=
  healthFactor_zero_on_invalid _ (Or.inl rfl)

/-- Counterexample to C4 as stated: with an asset selected, both amounts
positive, and NO strategy selected, the health factor is nonzero (and its
panel is rendered) while the net-yield projection is null — a partial
derived result is shown although the strategy condition fails. -/
theorem derived_result_guard_cex :
    (mkState (some exAsset) none (AmountStr.parsed 1000)
      (AmountStr.parsed 500)).selectedStrategy = none ∧
    calculateHealthFactor (mkState (some exAsset) none (AmountStr.parsed 1000)
      (AmountStr.parsed 500)) ≠ 0 ∧
    healthFactorShown (mkState (some exAsset) none (AmountStr.parsed 1000)
      (AmountStr.parsed 500)) = true ∧
    calculateYields (mkState (some exAsset) none (AmountStr.parsed 1000)
      (AmountStr.parsed 500)) = none := by
  have h := calculateHealthFactor_valid (mkState (some exAsset) none
    (AmountStr.parsed 1000) (AmountStr.parsed 500)) exAsset 1000 500
    rfl rfl rfl (by norm_num) (by norm_num)
  refine ⟨rfl, ?_, ?_, rfl⟩
  · rw [h]
    norm_num [exAsset]
  · simp only [healthFactorShown, h]
    norm_num [exAsset]

/-- C4 (amended): the net-yield projection is non-null exactly when an asset
and a strategy are selected and both amounts parse to positive numbers; the
health factor is nonzero only when an asset is selected and both amounts
parse to positive numbers — a selected strategy is NOT required for the
health factor, so that partial result can be shown on its own. -/
theorem derived_result_guard (st : ComponentState) :
    ((calculateYields st).isSome = true ↔
      ((∃ a, st.selectedAsset = some a) ∧ (∃ s, st.selectedStrategy = some s) ∧
       (∃ dv, st.depositAmount = AmountStr.parsed dv ∧ 0 < dv) ∧
       (∃ bv, st.borrowAmount = AmountStr.parsed bv ∧ 0 < bv))) ∧
    (calculateHealthFactor st ≠ 0 →
      (∃ a, st.selectedAsset = some a) ∧
      (∃ dv, st.depositAmount = AmountStr.parsed dv ∧ 0 < dv) ∧
      (∃ bv, st.borrowAmount = AmountStr.parsed bv ∧ 0 < bv)) := by
  refine ⟨calculateYields_isSome_iff st, fun hne => ?_⟩
  obtain ⟨a, dv, bv, hA, hd, hb, hdv, hbv, -⟩ :=
    (calculateHealthFactor_ne_zero_iff st).1 hne
  exact ⟨⟨a, hA⟩, ⟨dv, hd, hdv⟩, ⟨bv, hb, hbv⟩⟩

/-- Witness for the amended C4 at concrete states: a fully-valid state has a
non-null yields result, and a state with a nonzero health factor has an
asset selected. -/
theorem derived_result_guard_witness :
    (calculateYields (mkState (some exAsset) (some exStrategy)
      (AmountStr.parsed 200) (AmountStr.parsed 100))).isSome = true ∧
    (∃ a, (mkState (some exAsset) none (AmountStr.parsed 200)
      (AmountStr.parsed 100)).selectedAsset = some a) := by
  constructor
  · exact (derived_result_guard _).1.mpr
      ⟨⟨exAsset, rfl⟩, ⟨exStrategy, rfl⟩, ⟨200, rfl, by norm_num⟩,
       ⟨100, rfl, by norm_num⟩⟩
  · refine ((derived_result_guard _).2 ?_).1
    have h := calculateHealthFactor_valid (mkState (some exAsset) none
      (AmountStr.parsed 200) (AmountStr.parsed 100)) exAsset 200 100
      rfl rfl rfl (by norm_num) (by norm_num)
    rw [h]
    norm_num [exAsset]

/-- C5: every non-null `calculateYields` result satisfies the period-split
law `daily*365 = weekly*52 = monthly*12 = annual`, with each period value a
linear division of the annual figure. -/
theorem yields_period_split (st : ComponentState) (r : YieldsResult)
    (h : calculateYields st = some r) :
    r.daily * 365 = r.annual ∧ r.weekly * 52 = r.annual ∧ r.monthly * 12 = r.annual ∧
    r.daily = r.annual / 365 ∧ r.weekly = r.annual / 52 ∧ r.monthly = r.annual / 12 := by
  obtain ⟨a, s, dv, bv, -, -, -, -, -, -, rfl⟩ := (calculateYields_eq_some_iff st r).1 h
  refine ⟨?_, ?_, ?_, rfl, rfl, rfl⟩ <;>
    exact div_mul_cancel₀ _ (by norm_num)

/-- Witness for C5 at a concrete valid state. -/
theorem yields_period_split_witness :
    ∃ r, calculateYields (mkState (some exAsset) (some exStrategy)
        (AmountStr.parsed 1000) (AmountStr.parsed 500)) = some r ∧
      r.daily * 365 = r.annual ∧ r.weekly * 52 = r.annual ∧ r.monthly * 12 = r.annual := by
  have hr := (calculateYields_eq_some_iff (mkState (some exAsset) (some exStrategy)
      (AmountStr.parsed 1000) (AmountStr.parsed 500)) _).2
    ⟨exAsset, exStrategy, 1000, 500, rfl, rfl, rfl, rfl, by norm_num, by norm_num, rfl⟩
  obtain ⟨h1, h2, h3, -, -, -⟩ := yields_period_split _ _ hr
  exact ⟨_, hr, h1, h2, h3⟩

/-- C6: on valid inputs with `maxLtv ∈ (0,100]`, the health factor is
strictly decreasing in the borrow amount and strictly increasing in the
deposit amount and in `maxLtv`. -/
theorem healthFactor_monotone (st₁ st₂ : ComponentState) (a₁ a₂ : TokenInfo)
    (d₁ b₁ d₂ b₂ : ℚ)
    (hA₁ : st₁.selectedAsset = some a₁) (hA₂ : st₂.selectedAsset = some a₂)
    (hd₁ : st₁.depositAmount = AmountStr.parsed d₁)
    (hb₁ : st₁.borrowAmount = AmountStr.parsed b₁)
    (hd₂ : st₂.depositAmount = AmountStr.parsed d₂)
    (hb₂ : st₂.borrowAmount = AmountStr.parsed b₂)
    (hl₁ : 0 < a₁.maxLtv) (hl₁top : a₁.maxLtv ≤ 100)
    (hl₂ : 0 < a₂.maxLtv) (hl₂top : a₂.maxLtv ≤ 100)
    (hdp₁ : 0 < d₁) (hbp₁ : 0 < b₁) (hdp₂ : 0 < d₂) (hbp₂ : 0 < b₂) :
    (a₁.maxLtv = a₂.maxLtv → d₁ = d₂ → b₁ < b₂ →
      calculateHealthFactor st₂ < calculateHealthFactor st₁) ∧
    (a₁.maxLtv = a₂.maxLtv → b₁ = b₂ → d₁ < d₂ →
      calculateHealthFactor st₁ < calculateHealthFactor st₂) ∧
    (d₁ = d₂ → b₁ = b₂ → a₁.maxLtv < a₂.maxLtv →
      calculateHealthFactor st₁ < calculateHealthFactor st₂) := by
  have h₁ := calculateHealthFactor_valid st₁ a₁ d₁ b₁ hA₁ hd₁ hb₁ hdp₁ hbp₁
  have h₂ := calculateHealthFactor_valid st₂ a₂ d₂ b₂ hA₂ hd₂ hb₂ hdp₂ hbp₂
  rw [h₁, h₂]
  refine ⟨?_, ?_, ?_⟩
  · rintro hl rfl hb
    rw [← hl]
    gcongr
  · rintro hl rfl hd
    rw [← hl]
    gcongr
  · rintro rfl rfl hl
    gcongr

/-- Witness for C6: maxLtv 80, deposit 1000, borrow 500 versus borrow 600
exercises the strict decrease in the borrow amount. -/
theorem healthFactor_monotone_witness :
    calculateHealthFactor (mkState (some exAsset) none
      (AmountStr.parsed 1000) (AmountStr.parsed 600)) <
    calculateHealthFactor (mkState (some exAsset) none
      (AmountStr.parsed 1000) (AmountStr.parsed 500)) :=
  (healthFactor_monotone
    (mkState (some exAsset) none (AmountStr.parsed 1000) (AmountStr.parsed 500))
    (mkState (some exAsset) none (AmountStr.parsed 1000) (AmountStr.parsed 600))
    exAsset exAsset 1000 500 1000 600 rfl rfl rfl rfl rfl rfl
    (by norm_num [exAsset]) (by norm_num [exAsset])
    (by norm_num [exAsset]) (by norm_num [exAsset])
    (by norm_num) (by norm_num) (by norm_num) (by norm_num)).1
    rfl rfl (by norm_num)

/-- C7: the division by `borrow` in `calculateHealthFactor` and the division
by `deposit` in `calculateYields` never see a zero divisor: the instrumented
variants never report a division by zero, on any state, and agree with the
originals. -/
theorem no_div_by_zero (st : ComponentState) :
    calculateHealthFactorChecked st = some (calculateHealthFactor st) ∧
    calculateYieldsChecked st = some (calculateYields st) := by
  obtain ⟨sa, pr, lg, da, ba, ss, ld, asl, sgl⟩ := st
  constructor
  · cases sa <;> cases da <;> cases ba <;>
      simp only [calculateHealthFactorChecked, calculateHealthFactor, checkedDiv,
        AmountStr.isTruthy, AmountStr.parseFloat, Bool.not_true, Bool.not_false,
        Bool.or_self, Bool.true_or, Bool.or_true, Bool.false_or,
        Bool.false_eq_true, if_true, if_false] <;>
      try rfl
    case some.parsed.parsed a v w =>
      split_ifs with h hw
      · rfl
      · push_neg at h
        exact absurd hw (ne_of_gt h.2)
      · rfl
  · cases sa <;> cases ss <;> cases da <;> cases ba <;>
      simp only [calculateYieldsChecked, calculateYields, checkedDiv,
        AmountStr.isTruthy, AmountStr.parseFloat, Bool.not_true, Bool.not_false,
        Bool.or_self, Bool.true_or, Bool.or_true, Bool.false_or,
        Bool.false_eq_true, if_true, if_false] <;>
      try rfl
    case some.some.parsed.parsed a s v w =>
      split_ifs with h hv
      · rfl
      · push_neg at h
        exact absurd hv (ne_of_gt h.1)
      · rfl

/-- C8: the two calculations are pure functions of the selected asset, the
selected strategy, and the two amount strings: any two component states
agreeing on those four fields (but arbitrary in prices, logos, loading and
the fetched lists) produce identical outputs. -/
theorem calculations_pure (st₁ st₂ : ComponentState)
    (hA : st₁.selectedAsset = st₂.selectedAsset)
    (hS : st₁.selectedStrategy = st₂.selectedStrategy)
    (hd : st₁.depositAmount = st₂.depositAmount)
    (hb : st₁.borrowAmount = st₂.borrowAmount) :
    calculateHealthFactor st₁ = calculateHealthFactor st₂ ∧
    calculateYields st₁ = calculateYields st₂ := by
  obtain ⟨sa₁, pr₁, lg₁, da₁, ba₁, ss₁, ld₁, asl₁, sgl₁⟩ := st₁
  obtain ⟨sa₂, pr₂, lg₂, da₂, ba₂, ss₂, ld₂, asl₂, sgl₂⟩ := st₂
  dsimp only at hA hS hd hb
  subst hA hS hd hb
  exact ⟨rfl, rfl⟩

/-- Witness for C8: two states agreeing on the four inputs but differing in
loading flag, price map and fetched lists give identical outputs. -/
theorem calculations_pure_witness :
    calculateHealthFactor (mkState (some exAsset) (some exStrategy)
      (AmountStr.parsed 3) (AmountStr.parsed 2)) =
    calculateHealthFactor { mkState (some exAsset) (some exStrategy)
      (AmountStr.parsed 3) (AmountStr.parsed 2) with
        loading := true, assets := [exAsset], strategies := [exStrategy] } ∧
    calculateYields (mkState (some exAsset) (some exStrategy)
      (AmountStr.parsed 3) (AmountStr.parsed 2)) =
    calculateYields { mkState (some exAsset) (some exStrategy)
      (AmountStr.parsed 3) (AmountStr.parsed 2) with
        loading := true, assets := [exAsset], strategies := [exStrategy] } :=
  calculations_pure _ _ rfl rfl rfl rfl

/-- C9: `calculateHealthFactor` depends on the selected asset only through
`maxLtv`, and not at all on the selected strategy or on `borrowApy`: two
states with selected assets of equal `maxLtv` and equal amount strings give
the same health factor. -/
theorem healthFactor_independent (st₁ st₂ : ComponentState) (a₁ a₂ : TokenInfo)
    (hA₁ : st₁.selectedAsset = some a₁) (hA₂ : st₂.selectedAsset = some a₂)
    (hltv : a₁.maxLtv = a₂.maxLtv)
    (hd : st₁.depositAmount = st₂.depositAmount)
    (hb : st₁.borrowAmount = st₂.borrowAmount) :
    calculateHealthFactor st₁ = calculateHealthFactor st₂ := by
  obtain ⟨sa₁, pr₁, lg₁, da₁, ba₁, ss₁, ld₁, asl₁, sgl₁⟩ := st₁
  obtain ⟨sa₂, pr₂, lg₂, da₂, ba₂, ss₂, ld₂, asl₂, sgl₂⟩ := st₂
  dsimp only at hA₁ hA₂ hd hb
  subst hA₁ hA₂ hd hb
  cases da₁ <;> cases ba₁ <;>
    simp only [calculateHealthFactor, AmountStr.isTruthy, AmountStr.parseFloat,
      Bool.not_true, Bool.not_false, Bool.or_self, Bool.true_or, Bool.or_true,
      Bool.false_or, Bool.false_eq_true, if_true, if_false] <;>
    try rfl
  case parsed.parsed v w =>
    rw [hltv]

/-- Witness for C9: same maxLtv but different borrowApy and different
strategy selection give the same health factor. -/
theorem healthFactor_independent_witness :
    calculateHealthFactor (mkState (some exAsset) (some exStrategy)
      (AmountStr.parsed 1000) (AmountStr.parsed 500)) =
    calculateHealthFactor (mkState (some { exAsset with borrowApy := 99 }) none
      (AmountStr.parsed 1000) (AmountStr.parsed 500)) :=
  healthFactor_independent _ _ exAsset { exAsset with borrowApy := 99 }
    rfl rfl rfl rfl rfl

/-- C10: a selected asset with `maxLtv = 0` and positive amounts yields a
health factor of exactly 0 — the same value `calculateHealthFactor` returns
in the no-input state — so the health-factor panel and the liquidation-risk
warning are both suppressed. -/
theorem healthFactor_zero_ltv (st : ComponentState) (a : TokenInfo) (dv bv : ℚ)
    (hA : st.selectedAsset = some a) (hltv : a.maxLtv = 0)
    (hd : st.depositAmount = AmountStr.parsed dv)
    (hb : st.borrowAmount = AmountStr.parsed bv)
    (hdv : 0 < dv) (hbv : 0 < bv) :
    calculateHealthFactor st = 0 ∧
    calculateHealthFactor st =
      calculateHealthFactor (mkState none none AmountStr.empty AmountStr.empty) ∧
    healthFactorShown st = false ∧
    liquidationRiskShown st = false := by
  have h := calculateHealthFactor_valid st a dv bv hA hd hb hdv hbv
  have h0 : calculateHealthFactor st = 0 := by
    rw [h, hltv]
    simp
  refine ⟨h0, by rw [h0]; rfl, ?_, ?_⟩
  · simp [healthFactorShown, h0]
  · simp [liquidationRiskShown, healthFactorShown, h0]

/-- Witness for C10 at a concrete zero-LTV asset. -/
theorem healthFactor_zero_ltv_witness :
    calculateHealthFactor (mkState (some { exAsset with maxLtv := 0 }) none
      (AmountStr.parsed 1000) (AmountStr.parsed 500)) = 0 ∧
    healthFactorShown (mkState (some { exAsset with maxLtv := 0 }) none
      (AmountStr.parsed 1000) (AmountStr.parsed 500)) = false := by
  obtain ⟨h0, -, hs, -⟩ := healthFactor_zero_ltv
    (mkState (some { exAsset with maxLtv := 0 }) none
      (AmountStr.parsed 1000) (AmountStr.parsed 500))
    { exAsset with maxLtv := 0 } 1000 500 rfl rfl rfl rfl
    (by norm_num) (by norm_num)
  exact ⟨h0, hs⟩

end YieldArb
